import Mathlib

/-
  Shallow embedding of src/oic/utils/keyio.py (pyoidc key management):
  the Key class hierarchy (RSA_key, EC_key, HMAC_key), KeyBundle with its
  remote-refresh caching logic, and KeyJar with issuer-indexed resolution.

  Machine conventions:
  * Python strings are Lean String; absent/None string-valued attributes are
    the empty string (matching the Python defaults), and genuinely optional
    values are Option.
  * time.time() is a Nat supplied by an Env record, together with the outcome
    of the single HTTP request a refresh may perform and the contents of local
    key files (already JSON-parsed).
  * Opaque cryptographic handles (M2Crypto key objects) are modelled as
    Strings produced by uninterpreted tagging functions, since the core never
    inspects them beyond identity/equality.
  * Python exceptions are the error component of Except / Option String;
    methods that mutate state before raising return the mutated state
    alongside the pending exception, mirroring in-place mutation.
-/

/-- Discriminates which Python class (RSA_key, EC_key, HMAC_key) a key object
belongs to; in the source this is the class chosen via the K2C table. -/
inductive PyCls where
  | rsa
  | ec
  | hmac
deriving DecidableEq, Repr

/-- A Python key object: the union of the attributes of Key, RSA_key and
EC_key. Attributes a class does not define are kept at "" and never read,
matching Python where they simply do not exist on the instance. -/
structure PyKey where
  cls : PyCls
  key : String
  kty : String
  alg : String
  use : String
  kid : String
  n : String
  e : String
  crv : String
  x : String
  y : String
deriving DecidableEq, Repr

/-- A JWK-style dictionary: the possible members of a serialized key object.
A field is none when the member is absent from the dict. -/
structure JwkDict where
  kty : Option String
  alg : Option String
  use : Option String
  kid : Option String
  key : Option String
  n : Option String
  e : Option String
  crv : Option String
  x : Option String
  y : Option String
deriving DecidableEq, Repr

def JwkDict.empty : JwkDict := ⟨none, none, none, none, none, none, none, none, none, none⟩

/-- Python str.lower(), computed over the character list. -/
def pyLower (s : String) : String := ⟨s.data.map Char.toLower⟩

/-- Python s.startswith(pre), computed over the character lists. -/
def pyStartsWith (s pre : String) : Bool := decide (pre.data <+: s.data)

/-- Python s.endswith(suf), computed over the character lists. -/
def pyEndsWith (s suf : String) : Bool := decide (suf.data <:+ s.data)

/-- Models M2Crypto.RSA.new_pub_key applied to the (e, n) pair, as done by
RSA_key.comp: an opaque handle determined by e and n. -/
def new_pub_key (e n : String) : String := "RSApub<" ++ e ++ "|" ++ n ++ ">"

/-- Models long_to_base64(mpi_to_long(key.n)) in RSA_key.decomp: the modulus
extracted from an opaque key handle. -/
def mpiN (key : String) : String := "modOf<" ++ key ++ ">"

/-- Models long_to_base64(mpi_to_long(key.e)) in RSA_key.decomp: the exponent
extracted from an opaque key handle. -/
def mpiE (key : String) : String := "expOf<" ++ key ++ ">"

/-- RSA_key.__init__ (which calls Key.__init__, lowercasing kty). -/
def RSA_keyInit (kty alg use kid n e key : String) : PyKey :=
  ⟨.rsa, key, pyLower kty, alg, use, kid, n, e, "", "", ""⟩

/-- EC_key.__init__ (which calls Key.__init__, lowercasing kty). -/
def EC_keyInit (kty alg use kid crv x y key : String) : PyKey :=
  ⟨.ec, key, pyLower kty, alg, use, kid, "", "", crv, x, y⟩

/-- HMAC_key.__init__, i.e. Key.__init__ (lowercases kty). -/
def HMAC_keyInit (kty alg use kid key : String) : PyKey :=
  ⟨.hmac, key, pyLower kty, alg, use, kid, "", "", "", "", ""⟩

/-- Key.dc / RSA_key.dc: for RSA, if the opaque key is set derive n and e
(decomp); otherwise if n and e are both set derive the opaque key (comp);
otherwise do nothing. EC_key and HMAC_key inherit the base no-op dc. -/
def PyKey.dc (k : PyKey) : PyKey :=
  match k.cls with
  | .rsa =>
      if k.key ≠ "" then { k with n := mpiN k.key, e := mpiE k.key }
      else if k.n ≠ "" ∧ k.e ≠ "" then { k with key := new_pub_key k.e k.n }
      else k
  | .ec => k
  | .hmac => k

/-- Python truthiness for a string attribute in Key.to_dict: included in the
dict only when non-empty. -/
def optS (s : String) : Option String := if s = "" then none else some s

/-- Key.to_dict: emits exactly the non-empty attributes among the members list
of the key's class (RSA_key: kty alg use kid n e; EC_key: kty alg use kid crv
x y; HMAC_key: kty alg use kid). The opaque key attribute is never a member. -/
def PyKey.to_dict (k : PyKey) : JwkDict :=
  match k.cls with
  | .rsa => ⟨optS k.kty, optS k.alg, optS k.use, optS k.kid, none, optS k.n, optS k.e,
             none, none, none⟩
  | .ec => ⟨optS k.kty, optS k.alg, optS k.use, optS k.kid, none, none, none,
            optS k.crv, optS k.x, optS k.y⟩
  | .hmac => ⟨optS k.kty, optS k.alg, optS k.use, optS k.kid, none, none, none,
              none, none, none⟩

/-- A missing kwarg falls back to the Python parameter default "". -/
def strOf (o : Option String) : String := o.getD ""

/-- One iteration of KeyBundle.do_keys: inst["kty"] (KeyError when absent),
K2C lookup on the lowercased kind (KeyError when unknown), construction via
K2C[typ](**inst) (TypeError when the dict holds a member the constructor does
not accept), then _key.dc(). -/
def decodeOne (inst : JwkDict) : Except String PyKey :=
  match inst.kty with
  | none => .error "KeyError: kty"
  | some kty0 =>
    let typ := pyLower kty0
    if typ = "rsa" then
      if inst.crv = none ∧ inst.x = none ∧ inst.y = none then
        .ok (RSA_keyInit kty0 (strOf inst.alg) (strOf inst.use) (strOf inst.kid)
              (strOf inst.n) (strOf inst.e) (strOf inst.key)).dc
      else .error "TypeError: unexpected keyword argument"
    else if typ = "ec" then
      if inst.n = none ∧ inst.e = none then
        .ok (EC_keyInit kty0 (strOf inst.alg) (strOf inst.use) (strOf inst.kid)
              (strOf inst.crv) (strOf inst.x) (strOf inst.y) (strOf inst.key)).dc
      else .error "TypeError: unexpected keyword argument"
    else if typ = "hmac" then
      if inst.n = none ∧ inst.e = none ∧ inst.crv = none ∧ inst.x = none ∧ inst.y = none then
        .ok (HMAC_keyInit kty0 (strOf inst.alg) (strOf inst.use) (strOf inst.kid)
              (strOf inst.key)).dc
      else .error "TypeError: unexpected keyword argument"
    else .error ("KeyError: " ++ typ)

/-- KeyBundle.do_keys: appends decoded keys to the accumulated list one by
one; a failing entry stops the loop, keeping the keys appended so far and
carrying the pending exception. -/
def do_keys : List JwkDict → List PyKey → List PyKey × Option String
  | [], acc => (acc, none)
  | inst :: rest, acc =>
    match decodeOne inst with
    | .ok k => do_keys rest (acc ++ [k])
    | .error e => (acc, some e)

instance {ε α : Type} [DecidableEq ε] [DecidableEq α] : DecidableEq (Except ε α) := by
  intro a b
  cases a <;> cases b
  case ok.ok u v =>
    cases decEq u v
    case isTrue h => exact .isTrue (by rw [h])
    case isFalse h => exact .isFalse (by intro hc; cases hc; exact h rfl)
  case error.error u v =>
    cases decEq u v
    case isTrue h => exact .isTrue (by rw [h])
    case isFalse h => exact .isFalse (by intro hc; cases hc; exact h rfl)
  case error.ok u v => exact .isFalse (by intro hc; cases hc)
  case ok.error u v => exact .isFalse (by intro hc; cases hc)

/-- The response of the single HTTP GET a refresh performs: its status code,
the result of json.loads(r.text)["keys"] (error = parse failure or a missing
"keys" member), and the optional Etag / Cache-Control response headers. -/
structure HttpResp where
  status : Nat
  body : Except String (List JwkDict)
  etagHeader : Option String
  ccHeader : Option String
deriving DecidableEq, Repr

/-- Outcome of requests.request: a transport-level exception or a response. -/
inductive HttpResult where
  | exn (msg : String)
  | resp (r : HttpResp)
deriving DecidableEq, Repr

/-- The ambient world a KeyBundle operation observes: the clock, the outcome
of the (at most one) remote fetch, and local key files, modelled already
JSON-parsed (jwkFiles) or as the opaque handle rsa_load would return
(derFiles); a filename absent from the list raises IOError. -/
structure Env where
  now : Nat
  http : HttpResult
  jwkFiles : List (String × List JwkDict)
  derFiles : List (String × String)
deriving DecidableEq, Repr

def fileLookup {α : Type} : List (String × α) → String → Option α
  | [], _ => none
  | (k, v) :: rest, s => if k = s then some v else fileLookup rest s

/-- KeyBundle state: _keys plus the source/caching attributes set up by
KeyBundle.__init__. -/
structure KeyBundle where
  _keys : List PyKey
  remote : Bool
  verify_ssl : Bool
  cache_time : Nat
  time_out : Nat
  etag : String
  cache_control : Option String
  source : Option String
  fileformat : String
  keytype : String
  keyusage : List String
deriving DecidableEq, Repr

/-- KeyBundle.do_local_jwk: read and parse the file, then do_keys on its
"keys" array; appends to the existing _keys. -/
def KeyBundle.do_local_jwk (b : KeyBundle) (env : Env) (filename : String) :
    KeyBundle × Option String :=
  match fileLookup env.jwkFiles filename with
  | none => (b, some ("IOError: " ++ filename))
  | some doc =>
    let p := do_keys doc b._keys
    ({ b with _keys := p.1 }, p.2)

/-- The key object K2C[keytype]() starts from in KeyBundle.do_local_der,
before its key/use attributes are assigned: RSA_key() (kty defaults to
"rsa"), EC_key() (kty also defaults to "rsa"), HMAC_key() (kty defaults to
""); an unknown keytype raises KeyError. -/
def derNewKey (keytype : String) : Except String PyKey :=
  if keytype = "rsa" then .ok (RSA_keyInit "rsa" "" "" "" "" "" "")
  else if keytype = "ec" then .ok (EC_keyInit "rsa" "" "" "" "" "" "" "")
  else if keytype = "hmac" then .ok (HMAC_keyInit "" "" "" "" "")
  else .error ("KeyError: " ++ keytype)

/-- The per-usage loop body of do_local_der: build K2C[keytype](), assign the
loaded material, run decomp (deriving n and e for RSA; a no-op otherwise),
assign the usage. -/
def derKeyFor (keytype mat use : String) : Except String PyKey :=
  match derNewKey keytype with
  | .error e => .error e
  | .ok k0 =>
    let k1 := { k0 with key := mat }
    let k2 := match k1.cls with
      | .rsa => { k1 with n := mpiN k1.key, e := mpiE k1.key }
      | _ => k1
    .ok { k2 with use := use }

def derLoop (keytype mat : String) : List String → List PyKey → List PyKey × Option String
  | [], acc => (acc, none)
  | u :: rest, acc =>
    match derKeyFor keytype mat u with
    | .ok k => derLoop keytype mat rest (acc ++ [k])
    | .error e => (acc, some e)

/-- KeyBundle.do_local_der: load the raw key when keytype is "rsa" (an absent
file raises IOError), default the usage list to ["enc", "sig"] when falsy,
then create one key object per usage sharing the material. -/
def KeyBundle.do_local_der (b : KeyBundle) (env : Env)
    (filename keytype : String) (keyusage : List String) :
    KeyBundle × Option String :=
  let usages := if keyusage = [] then ["enc", "sig"] else keyusage
  if keytype = "rsa" then
    match fileLookup env.derFiles filename with
    | none => (b, some ("IOError: " ++ filename))
    | some mat =>
      let p := derLoop keytype mat usages b._keys
      ({ b with _keys := p.1 }, p.2)
  else
    let p := derLoop keytype "" usages b._keys
    ({ b with _keys := p.1 }, p.2)

/-- KeyBundle.do_remote: perform the conditional GET. A transport failure
propagates without mutation. Status 304 only advances time_out by cache_time.
Status 200 advances time_out, appends the decoded response keys via do_keys
(a body parse or decode failure leaves time_out advanced and keys partially
appended, as the exception interrupts the method), then stores the Etag and
Cache-Control headers when present. Any other status does nothing. -/
def KeyBundle.do_remote (b : KeyBundle) (env : Env) : KeyBundle × Option String :=
  match b.source with
  | none => (b, some "TypeError: source is None")
  | some _ =>
    match env.http with
    | .exn msg => (b, some msg)
    | .resp r =>
      if r.status = 304 then
        ({ b with time_out := env.now + b.cache_time }, none)
      else if r.status = 200 then
        let b1 := { b with time_out := env.now + b.cache_time }
        match r.body with
        | .error e => (b1, some e)
        | .ok doc =>
          let p := do_keys doc b1._keys
          let b2 := { b1 with _keys := p.1 }
          match p.2 with
          | some e => (b2, some e)
          | none =>
            let b3 := match r.etagHeader with
              | some t => { b2 with etag := t }
              | none => b2
            let b4 := match r.ccHeader with
              | some c => { b2 with etag := b3.etag, cache_control := some c }
              | none => b3
            (b4, none)
      else (b, none)

/-- KeyBundle.update: when the source is truthy, clear _keys and reload from
the source — local jwk/der file re-read for non-remote bundles, do_remote for
remote ones. The Nat result counts the do_remote invocations (remote
fetches) this call performed. -/
def KeyBundle.update (b : KeyBundle) (env : Env) : KeyBundle × Nat × Option String :=
  match b.source with
  | some src =>
    if src ≠ "" then
      let b1 := { b with _keys := [] }
      if b1.remote = false then
        if b1.fileformat = "jwk" then
          let p := b1.do_local_jwk env src
          (p.1, 0, p.2)
        else if b1.fileformat = "der" then
          let p := b1.do_local_der env src b1.keytype b1.keyusage
          (p.1, 0, p.2)
        else (b1, 0, none)
      else
        let p := b1.do_remote env
        (p.1, 1, p.2)
    else (b, 0, none)
  | none => (b, 0, none)

/-- The guard `self._keys is not []` in KeyBundle._uptodate compares object
identity against a freshly evaluated empty-list literal, so it is True for
every list, empty or not. -/
def keysIsNotEmptyList (_ks : List PyKey) : Bool := true

/-- KeyBundle._uptodate: the identity-based emptiness guard always takes the
first branch, so a refresh is triggered exactly for remote bundles whose
time_out lies strictly in the past. -/
def KeyBundle.uptodate (b : KeyBundle) (env : Env) : KeyBundle × Nat × Option String :=
  if keysIsNotEmptyList b._keys then
    if b.remote then
      if env.now > b.time_out then b.update env
      else (b, 0, none)
    else (b, 0, none)
  else
    if b.remote then b.update env
    else (b, 0, none)

/-- Result of a KeyBundle read accessor: the (possibly refreshed) bundle, the
number of remote fetches performed, and the returned keys or the escaping
exception. -/
structure GetOut where
  bundle : KeyBundle
  fetches : Nat
  res : Except String (List PyKey)
deriving DecidableEq, Repr

/-- KeyBundle.get: _uptodate, then the keys filtered by lowercased type when
typ is truthy, else all keys. -/
def KeyBundle.get (b : KeyBundle) (env : Env) (typ : String) : GetOut :=
  let u := b.uptodate env
  match u.2.2 with
  | some e => ⟨u.1, u.2.1, .error e⟩
  | none =>
    if typ ≠ "" then
      let t := pyLower typ
      ⟨u.1, u.2.1, .ok (u.1._keys.filter (fun k => k.kty == t))⟩
    else ⟨u.1, u.2.1, .ok u.1._keys⟩

/-- KeyBundle.keys: _uptodate, then all keys. -/
def KeyBundle.keysAcc (b : KeyBundle) (env : Env) : GetOut :=
  let u := b.uptodate env
  match u.2.2 with
  | some e => ⟨u.1, u.2.1, .error e⟩
  | none => ⟨u.1, u.2.1, .ok u.1._keys⟩

/-- KeyBundle.remove: drop every key of the lowercased type, restricted to
those whose material equals val when val is truthy. -/
def KeyBundle.removeTyp (b : KeyBundle) (typ : String) (val : Option String) : KeyBundle :=
  let t := pyLower typ
  match val with
  | some v =>
    if v ≠ "" then
      { b with _keys := b._keys.filter (fun k => !(k.kty == t && k.key == v)) }
    else { b with _keys := b._keys.filter (fun k => !(k.kty == t)) }
  | none => { b with _keys := b._keys.filter (fun k => !(k.kty == t)) }

/-- KeyBundle.__init__: fresh caching state; a truthy keys argument is decoded
in place (source stays None); otherwise the source string is classified as a
file:// path (loaded immediately in the requested format), an http(s) URL
(marked remote, nothing fetched yet), the empty string (nothing loaded), or
anything else (an exception). -/
def KeyBundle.init (env : Env) (keys0 : List JwkDict) (source : String)
    (cache_time : Nat) (verify_ssl : Bool) (fileformat : String)
    (keytype : String) (keyusage : List String) : Except String KeyBundle :=
  let b : KeyBundle :=
    { _keys := [], remote := false, verify_ssl := verify_ssl,
      cache_time := cache_time, time_out := 0, etag := "",
      cache_control := none, source := none,
      fileformat := pyLower fileformat, keytype := pyLower keytype,
      keyusage := keyusage }
  if keys0 ≠ [] then
    let p := do_keys keys0 []
    match p.2 with
    | some e => .error e
    | none => .ok { b with _keys := p.1 }
  else
    if pyStartsWith source "file://" then
      let b1 := { b with source := some (source.drop 7) }
      let loaded :=
        if b1.fileformat = "jwk" then b1.do_local_jwk env (source.drop 7)
        else if b1.fileformat = "der" then
          b1.do_local_der env (source.drop 7) b1.keytype b1.keyusage
        else (b1, none)
      match loaded.2 with
      | some e => .error e
      | none => .ok loaded.1
    else if pyStartsWith source "http://" || pyStartsWith source "https://" then
      .ok { b with source := some source, remote := true }
    else if source = "" then .ok b
    else .error ("Unsupported source type: " ++ source)

/-- KeyJar state: issuer identity → bundle list, as an association list
(the Python dict is only used via lookup, assignment and membership). -/
structure KeyJar where
  issuer_keys : List (String × List KeyBundle)
deriving DecidableEq, Repr

def dictSet {α : Type} : List (String × α) → String → α → List (String × α)
  | [], k, v => [(k, v)]
  | (k0, v0) :: rest, k, v =>
    if k0 = k then (k, v) :: rest else (k0, v0) :: dictSet rest k v

/-- The trailing-slash fallback KeyJar.get applies to a missed non-empty
issuer: issuer[:-1] when the identity ends in "/", issuer + "/" otherwise. -/
def slashToggle (issuer : String) : String :=
  if pyEndsWith issuer "/" then issuer.dropRight 1 else issuer ++ "/"

/-- The issuer-resolution chain of KeyJar.get for a non-empty issuer: the
exact entry first, then the trailing-slash-toggled entry, else nothing;
yields the dict key actually hit together with its bundle list. -/
def KeyJar.lookupList (j : KeyJar) (issuer : String) : Option (String × List KeyBundle) :=
  match fileLookup j.issuer_keys issuer with
  | some l => some (issuer, l)
  | none =>
    match fileLookup j.issuer_keys (slashToggle issuer) with
    | some l => some (slashToggle issuer, l)
    | none => none

/-- The inner loop of KeyJar.get when a key type is given: bundles.get(typ),
keeping the material of keys whose use matches; an exception from a bundle
read stops the scan with the bundle states updated so far. -/
def jarScanTyped (env : Env) (u kt : String) :
    List KeyBundle → List KeyBundle × List String × Option String
  | [] => ([], [], none)
  | kb :: rest =>
    let o := kb.get env kt
    match o.res with
    | .error e => (o.bundle :: rest, [], some e)
    | .ok ks =>
      let lst := (ks.filter (fun k => k.use == u)).map (fun k => k.key)
      let r := jarScanTyped env u kt rest
      (o.bundle :: r.1, lst ++ r.2.1, r.2.2)

/-- res[key.kty].append(key.key) with a KeyError fallback creating the
entry. -/
def dictAppend (d : List (String × List String)) (k v : String) :
    List (String × List String) :=
  match fileLookup d k with
  | some l => dictSet d k (l ++ [v])
  | none => d ++ [(k, [v])]

/-- The inner loop of KeyJar.get when no key type is given: bundles.keys(),
grouping matching keys by kind into the result dict. -/
def jarScanAll (env : Env) (u : String) :
    List KeyBundle → List (String × List String) →
    List KeyBundle × List (String × List String) × Option String
  | [], acc => ([], acc, none)
  | kb :: rest, acc =>
    let o := kb.keysAcc env
    match o.res with
    | .error e => (o.bundle :: rest, acc, some e)
    | .ok ks =>
      let acc2 := ks.foldl (fun a k => if k.use == u then dictAppend a k.kty k.key else a) acc
      let r := jarScanAll env u rest acc2
      (o.bundle :: r.1, r.2.1, r.2.2)

/-- Result of a KeyJar lookup: the jar with any in-place bundle refreshes
applied, and the returned kind → materials dict or the escaping exception. -/
structure JarOut where
  jar : KeyJar
  res : Except String (List (String × List String))
deriving DecidableEq, Repr

/-- The result-building half of KeyJar.get, once the bundle list `bl` stored
under dict key `ik` has been resolved: an empty (falsy) list yields the empty
result dict; otherwise collect the material of keys whose use matches —
grouped by kind when no key type is given, or a single entry under the given
type — writing the in-place bundle refreshes back under `ik`. -/
def KeyJar.collect (j : KeyJar) (env : Env) (u key_type ik : String)
    (bl : List KeyBundle) : JarOut :=
  if bl = [] then ⟨j, .ok []⟩
  else if key_type ≠ "" then
    let r := jarScanTyped env u key_type bl
    let j2 : KeyJar := ⟨dictSet j.issuer_keys ik r.1⟩
    match r.2.2 with
    | some e => ⟨j2, .error e⟩
    | none => ⟨j2, .ok [(key_type, r.2.1)]⟩
  else
    let r := jarScanAll env u bl []
    let j2 : KeyJar := ⟨dictSet j.issuer_keys ik r.1⟩
    match r.2.2 with
    | some e => ⟨j2, .error e⟩
    | none => ⟨j2, .ok r.2.1⟩

/-- KeyJar.get: alias dec→enc and ver→sig; for a non-empty issuer resolve the
entry with the trailing-slash fallback, a fully missed issuer yielding an
empty bundle list (hence an empty result); for the empty (self) issuer a bare
dict lookup that raises KeyError when absent. Then collect the matching key
material. -/
def KeyJar.get (j : KeyJar) (env : Env) (use key_type issuer : String) : JarOut :=
  let u := if use = "dec" then "enc" else if use = "ver" then "sig" else use
  let entry : Except String (Option (String × List KeyBundle)) :=
    if issuer ≠ "" then .ok (j.lookupList issuer)
    else
      match fileLookup j.issuer_keys "" with
      | some l => .ok (some ("", l))
      | none => .error "KeyError: "
  match entry with
  | .error e => ⟨j, .error e⟩
  | .ok none => ⟨j, .ok []⟩
  | .ok (some (ik, bl)) => j.collect env u key_type ik bl

/-- The get_%s_key methods reachable from x_keys via getattr, mapped to the
usage they pass to KeyJar.get; none models the AttributeError for any other
var. -/
def useOfVar (var : String) : Option String :=
  if var = "signing" then some "sig"
  else if var = "verify" then some "ver"
  else if var = "encrypt" then some "enc"
  else if var = "decrypt" then some "dec"
  else none

/-- keys[kty].extend(val) with a KeyError fallback to keys[kty] = val. -/
def dictExtend (d : List (String × List String)) (k : String) (v : List String) :
    List (String × List String) :=
  match fileLookup d k with
  | some l => dictSet d k (l ++ v)
  | none => d ++ [(k, v)]

/-- KeyJar.x_keys: the counterpart lookup first, then the self (empty-issuer)
lookup, whose non-empty per-kind lists are appended after the counterpart
keys with no de-duplication. -/
def KeyJar.x_keys (j : KeyJar) (env : Env) (var part : String) : JarOut :=
  match useOfVar var with
  | none => ⟨j, .error ("AttributeError: get_" ++ var ++ "_key")⟩
  | some u =>
    let o1 := j.get env u "" part
    match o1.res with
    | .error e => ⟨o1.jar, .error e⟩
    | .ok keys =>
      let o2 := o1.jar.get env u "" ""
      match o2.res with
      | .error e => ⟨o2.jar, .error e⟩
      | .ok own =>
        ⟨o2.jar, .ok (own.foldl
          (fun a kv => if kv.2 = [] then a else dictExtend a kv.1 kv.2) keys)⟩

/-- KeyJar.verify_keys: x_keys with the verify usage. -/
def KeyJar.verify_keys (j : KeyJar) (env : Env) (part : String) : JarOut :=
  j.x_keys env "verify" part

/-- KeyJar.decrypt_keys: x_keys with the decrypt usage. -/
def KeyJar.decrypt_keys (j : KeyJar) (env : Env) (part : String) : JarOut :=
  j.x_keys env "decrypt" part

/-- Python substring containment `pat in s`, over the character sequences. -/
def strContains (s pat : String) : Bool := decide (pat.toList <:+: s.toList)

/-- KeyJar.add: construct a remote bundle for the url — with TLS verification
disabled when the url contains "/localhost:" or "/localhost/" — and append it
to the issuer's bundle list (creating the entry on KeyError). A constructor
exception propagates. -/
def KeyJar.add (j : KeyJar) (env : Env) (issuer url : String) :
    Except String (KeyJar × KeyBundle) :=
  let built :=
    if strContains url "/localhost:" || strContains url "/localhost/" then
      KeyBundle.init env [] url 300 false "jwk" "rsa" []
    else
      KeyBundle.init env [] url 300 true "jwk" "rsa" []
  match built with
  | .error e => .error e
  | .ok kc =>
    let l := match fileLookup j.issuer_keys issuer with
      | some l0 => l0 ++ [kc]
      | none => [kc]
    .ok (⟨dictSet j.issuer_keys issuer l⟩, kc)

def add_hmacLoop (env : Env) (key : String) :
    List String → KeyJar → KeyJar × Option String
  | [], j => (j, none)
  | u :: rest, j =>
    match KeyBundle.init env
        [{ JwkDict.empty with kty := some "hmac", key := some key, use := some u }]
        "" 300 true "jwk" "rsa" [] with
    | .error e => (j, some e)
    | .ok kb =>
      match fileLookup j.issuer_keys "" with
      | none => (j, some "KeyError: ")
      | some l => add_hmacLoop env key rest ⟨dictSet j.issuer_keys "" (l ++ [kb])⟩

/-- KeyJar.add_hmac: ensure the named issuer has an entry, then — as the
source does — append one single-key HMAC bundle per usage to the bundle list
of the empty-string (self) issuer, raising KeyError when that entry is
absent. -/
def KeyJar.add_hmac (j : KeyJar) (env : Env) (issuer key : String)
    (usage : List String) : KeyJar × Option String :=
  let j1 : KeyJar :=
    if (fileLookup j.issuer_keys issuer).isNone then ⟨dictSet j.issuer_keys issuer []⟩
    else j
  add_hmacLoop env key usage j1

/-- KeyJar.__contains__. -/
def KeyJar.contains (j : KeyJar) (item : String) : Bool :=
  (fileLookup j.issuer_keys item).isSome

/-- The body of KeyJar.remove_key over one issuer list: a Python for-loop by
index over the live list. list.remove on these objects compares by identity,
so pruning an emptied bundle deletes exactly the slot under the index, and
the left shift makes the advancing index skip the following element, as in
the source. The structural fuel argument is initialised to the list's length,
which bounds the iteration count: the index grows by one per step while the
length never grows, so when fuel runs out the index check has already failed
and returning the list unchanged coincides with the loop's exit. -/
def removeKeyLoop (typ : String) (val : Option String) :
    Nat → Nat → List KeyBundle → List KeyBundle
  | 0, _, l => l
  | fuel + 1, i, l =>
    if h : i < l.length then
      let kc := (l.get ⟨i, h⟩).removeTyp typ val
      let l2 := l.set i kc
      if kc._keys = [] then removeKeyLoop typ val fuel (i + 1) (l2.eraseIdx i)
      else removeKeyLoop typ val fuel (i + 1) l2
    else l

/-- KeyJar.remove_key: silently return on an unknown issuer; otherwise run
the pruning loop over the issuer's bundle list. The issuer entry itself is
never deleted, even when its list becomes empty. -/
def KeyJar.remove_key (j : KeyJar) (issuer key_type : String) (key : Option String) :
    KeyJar :=
  match fileLookup j.issuer_keys issuer with
  | none => j
  | some kcs => ⟨dictSet j.issuer_keys issuer (removeKeyLoop key_type key kcs.length 0 kcs)⟩

/-
  Concrete scenario inputs and helper lemmas used to settle the specification
  claims, followed by the claim theorems themselves.
-/

/-- The kty string the K2C table associates with each key class. -/
def kindStr : PyCls → String
  | .rsa => "rsa"
  | .ec => "ec"
  | .hmac => "hmac"

/-- An RSA signing key carrying only material m, as wrapped into an in-memory
bundle. -/
def sigRsa (m : String) : PyKey := ⟨.rsa, m, "rsa", "", "sig", "", "", "", "", "", ""⟩

/-- The bundle state KeyBundle(keys=...) leaves behind for an in-memory list
of already decoded keys: non-remote, no source, fresh caching defaults. -/
def mkMemBundle (ks : List PyKey) : KeyBundle :=
  ⟨ks, false, true, 300, 0, "", none, none, "jwk", "rsa", []⟩

def bundleC1 : KeyBundle :=
  ⟨[⟨.rsa, "matA", "rsa", "", "sig", "kidA", "nA", "eA", "", "", ""⟩],
   true, true, 300, 10, "", none, some "https://issuer.example/jwks", "jwk", "rsa", []⟩

def envC1fail : Env := ⟨2000, .resp ⟨500, .ok [], none, none⟩, [], []⟩

def envC1exn : Env := ⟨2000, .exn "ConnectionError", [], []⟩

def bundleC2 : KeyBundle :=
  ⟨[⟨.rsa, "matB", "rsa", "", "sig", "kidB", "nB", "eB", "", "", ""⟩],
   true, true, 300, 10, "etagB", none, some "https://issuer.example/jwks", "jwk", "rsa", []⟩

def envC2 : Env := ⟨2000, .resp ⟨304, .ok [], none, none⟩, [], []⟩

def bundleC3cex : KeyBundle :=
  ⟨[], true, true, 300, 100, "", none, some "https://issuer.example/jwks", "jwk", "rsa", []⟩

def envC3cex : Env := ⟨50, .resp ⟨200, .ok [], none, none⟩, [], []⟩

def bundleC3w : KeyBundle :=
  ⟨[], true, true, 300, 500, "", none, some "https://issuer.example/jwks", "jwk", "rsa", []⟩

def envC3w : Env := ⟨900, .resp ⟨200, .ok [], none, none⟩, [], []⟩

def envC4 : Env := ⟨0, .resp ⟨200, .ok [], none, none⟩, [], []⟩

def jarC4w : KeyJar := ⟨[("https://other.example", [])]⟩

def jarC5 : KeyJar := ⟨[("", [])]⟩

def ksC6w : List PyKey := [⟨.rsa, "m6", "rsa", "", "sig", "", "", "", "", "", ""⟩]

def jarC6 : KeyJar := ⟨[("https://op.example", [mkMemBundle [sigRsa "m1"]])]⟩

def envC8 : Env := ⟨0, .resp ⟨200, .ok [], none, none⟩, [], []⟩

def hmacEx : PyKey := ⟨.hmac, "sek", "hmac", "", "sig", "kidH", "", "", "", "", ""⟩

def hmacExDecoded : PyKey := ⟨.hmac, "", "hmac", "", "sig", "kidH", "", "", "", "", ""⟩

def rsaEx : PyKey := ⟨.rsa, "", "rsa", "RS256", "sig", "kid1", "nX", "eX", "", "", ""⟩

def envC10 : Env := ⟨0, .resp ⟨200, .ok [], none, none⟩, [], []⟩

def kcC10 : KeyBundle :=
  ⟨[], true, false, 300, 0, "", none, some "https://localhost:8080/jwks", "jwk", "rsa", []⟩

def jarC10 : KeyJar := ⟨[("iss", [kcC10])]⟩

/-- Looking up the key heading an association list yields its value. -/
theorem fileLookup_cons_self {α : Type} (k : String) (v : α) (rest : List (String × α)) :
    fileLookup ((k, v) :: rest) k = some v := by
  unfold fileLookup
  rw [if_pos rfl]

/-- Assigning to the key heading an association list replaces its value. -/
theorem dictSet_cons_self {α : Type} (k : String) (v0 v : α) (rest : List (String × α)) :
    dictSet ((k, v0) :: rest) k v = (k, v) :: rest := by
  unfold dictSet
  rw [if_pos rfl]

/-- KeyBundle.get performs exactly the fetches of its _uptodate call. -/
theorem kb_get_fetches (b : KeyBundle) (env : Env) (typ : String) :
    (b.get env typ).fetches = (b.uptodate env).2.1 := by
  unfold KeyBundle.get
  rcases h : (b.uptodate env).2.2 with _ | e
  · simp only [h]
    split <;> rfl
  · simp only [h]

/-- KeyBundle.keys performs exactly the fetches of its _uptodate call. -/
theorem kb_keysAcc_fetches (b : KeyBundle) (env : Env) :
    (b.keysAcc env).fetches = (b.uptodate env).2.1 := by
  unfold KeyBundle.keysAcc
  rcases h : (b.uptodate env).2.2 with _ | e
  · simp only [h]
  · simp only [h]

/-- A forced update of a remote bundle with a truthy source performs exactly
one fetch, whatever the outcome. -/
theorem kb_update_fetches (b : KeyBundle) (env : Env) (u0 : String)
    (hr : b.remote = true) (hs : b.source = some u0) (hu : u0 ≠ "") :
    (b.update env).2.1 = 1 := by
  unfold KeyBundle.update
  rw [hs]
  simp [hu, hr]

/-- For a remote bundle with a truthy source, _uptodate fetches exactly when
the clock strictly exceeds time_out. -/
theorem kb_uptodate_fetches (b : KeyBundle) (env : Env) (u0 : String)
    (hr : b.remote = true) (hs : b.source = some u0) (hu : u0 ≠ "") :
    (b.uptodate env).2.1 = if env.now > b.time_out then 1 else 0 := by
  unfold KeyBundle.uptodate keysIsNotEmptyList
  rw [hr]
  by_cases hnow : env.now > b.time_out
  · simp only [if_true, if_pos hnow]
    rw [kb_update_fetches b env u0 hr hs hu]
  · simp only [if_true, if_neg hnow]

/-- Round trip through the Python string-truthiness pair used by to_dict and
the kwargs default. -/
theorem getD_if (s : String) : (if s = "" then none else some s).getD "" = s := by
  by_cases h : s = ""
  · simp [h]
  · simp [h]

/-- dc on a key without material leaves every attribute except the material
unchanged (comp may set the material; decomp is unreachable). -/
theorem dc_fields (k : PyKey) (h : k.key = "") :
    (PyKey.dc k).kty = k.kty ∧ (PyKey.dc k).alg = k.alg ∧ (PyKey.dc k).use = k.use ∧
    (PyKey.dc k).kid = k.kid ∧ (PyKey.dc k).n = k.n ∧ (PyKey.dc k).e = k.e ∧
    (PyKey.dc k).crv = k.crv ∧ (PyKey.dc k).x = k.x ∧ (PyKey.dc k).y = k.y := by
  rcases hcls : k.cls with _ | _ | _ <;> simp only [PyKey.dc, hcls, h]
  · split
    · simp_all
    · split <;> simp_all
  · simp
  · simp

/-- A local jwk reload does not touch verify_ssl. -/
theorem do_local_jwk_vs (b : KeyBundle) (env : Env) (f : String) :
    (b.do_local_jwk env f).1.verify_ssl = b.verify_ssl := by
  cases h2 : fileLookup env.jwkFiles f <;> simp [KeyBundle.do_local_jwk, h2]

/-- A local der reload does not touch verify_ssl. -/
theorem do_local_der_vs (b : KeyBundle) (env : Env) (f kt : String) (ku : List String) :
    (b.do_local_der env f kt ku).1.verify_ssl = b.verify_ssl := by
  unfold KeyBundle.do_local_der
  by_cases h : kt = "rsa"
  · rw [if_pos h]
    cases h2 : fileLookup env.derFiles f <;> simp [h2]
  · rw [if_neg h]

/-- Every successful KeyBundle constructor path stores the verify_ssl
argument unchanged. -/
theorem kb_init_vs (env : Env) (ks : List JwkDict) (src : String) (ct : Nat)
    (vs : Bool) (ff kt : String) (ku : List String) (b : KeyBundle)
    (h : KeyBundle.init env ks src ct vs ff kt ku = .ok b) : b.verify_ssl = vs := by
  unfold KeyBundle.init at h
  dsimp only [] at h
  split at h
  · split at h
    · cases h
    · cases h
      rfl
  · split at h
    · split at h
      · cases h
      · cases h
        split
        · rw [do_local_jwk_vs]
        · split
          · rw [do_local_der_vs]
          · rfl
    · split at h
      · cases h
        rfl
      · split at h
        · cases h
          rfl
        · cases h

/-- C1: the claim states that a failed refresh (transport error or a status
other than 200/304) leaves a remote bundle's N cached keys and its expiry
unchanged, with get still returning all N keys and no exception escaping. On
the code this fails: update() clears _keys before do_remote(), so after a
status-500 refresh the read returns zero of the one cached key (the bundle is
emptied while time_out is indeed untouched), and a transport error both
empties the bundle and escapes the read accessor. -/
theorem C1_refresh_failure_empties_bundle :
    bundleC1._keys.length = 1 ∧
    (bundleC1.get envC1fail "").res = .ok [] ∧
    (bundleC1.get envC1fail "").bundle._keys = [] ∧
    (bundleC1.get envC1fail "").bundle.time_out = bundleC1.time_out ∧
    (bundleC1.get envC1exn "").res = .error "ConnectionError" ∧
    (bundleC1.get envC1exn "").bundle._keys = [] := by decide

/-- C2: the claim states that a 304 (not-modified) refresh leaves the key
list identical and only advances the expiry. On the code this fails: update()
clears _keys before do_remote(), and the 304 branch only advances time_out
without repopulating the list, so the stale bundle with one cached key serves
zero keys after the 304 even though the expiry was advanced by cache_time. -/
theorem C2_not_modified_empties_bundle :
    bundleC2._keys.length = 1 ∧
    (bundleC2.get envC2 "").bundle.time_out = envC2.now + bundleC2.cache_time ∧
    (bundleC2.get envC2 "").res = .ok [] ∧
    (bundleC2.get envC2 "").bundle._keys = [] := by decide

/-- C3 counterexample: the claim states an empty key list triggers a remote
fetch on read; here a remote bundle with an empty key list read within its
TTL performs no fetch, because the guard `_keys is not []` compares identity
against a fresh list and is always True. -/
theorem C3_cex_empty_list_triggers_no_fetch :
    bundleC3cex._keys = [] ∧ (bundleC3cex.get envC3cex "").fetches = 0 := by decide

/-- C3 (amended): for a remote KeyBundle with a truthy source, the read
accessors get() and keys() perform a remote fetch exactly when the current
time strictly exceeds the stored expiry — one fetch when strictly stale, none
otherwise — regardless of whether the key list is empty. In particular a
second read within cache_time seconds of a successful refresh performs no
fetch, and a read strictly after the expiry performs exactly one. -/
theorem C3_fetch_only_when_strictly_stale (env : Env) (b : KeyBundle) (typ u0 : String)
    (hr : b.remote = true) (hs : b.source = some u0) (hu : u0 ≠ "") :
    (b.get env typ).fetches = (if env.now > b.time_out then 1 else 0) ∧
    (b.keysAcc env).fetches = (if env.now > b.time_out then 1 else 0) := by
  rw [kb_get_fetches, kb_keysAcc_fetches]
  exact ⟨kb_uptodate_fetches b env u0 hr hs hu, kb_uptodate_fetches b env u0 hr hs hu⟩

/-- C3 witness: the amended freshness-gating theorem applied to a concrete
stale remote bundle. -/
theorem C3_fetch_only_when_strictly_stale_witness :
    (bundleC3w.remote = true ∧ bundleC3w.source = some "https://issuer.example/jwks" ∧
      "https://issuer.example/jwks" ≠ "") ∧
    ((bundleC3w.get envC3w "rsa").fetches = (if envC3w.now > bundleC3w.time_out then 1 else 0) ∧
     (bundleC3w.keysAcc envC3w).fetches = (if envC3w.now > bundleC3w.time_out then 1 else 0)) :=
  ⟨⟨rfl, rfl, by decide⟩,
   C3_fetch_only_when_strictly_stale envC3w bundleC3w "rsa" "https://issuer.example/jwks"
     rfl rfl (by decide)⟩

/-- C4 counterexample: the claim states KeyJar.get never raises for an
unknown issuer, the empty-string identity included; on an empty jar the
lookup for the empty (self) issuer raises KeyError instead of returning an
empty result. -/
theorem C4_cex_empty_issuer_raises :
    ((KeyJar.mk []).get envC4 "sig" "" "").res = .error "KeyError: " := by decide

/-- C4 (amended): for every usage and every NON-empty issuer identity with no
bundle list under the identity or its slash-toggled form, KeyJar.get returns
an empty result and the jar unchanged, and never raises; the empty-string
(self) issuer is excluded, since a missing self entry raises KeyError. -/
theorem C4_unknown_nonempty_issuer_returns_empty (env : Env) (j : KeyJar)
    (use kt I : String) (hI : I ≠ "")
    (h1 : fileLookup j.issuer_keys I = none)
    (h2 : fileLookup j.issuer_keys (slashToggle I) = none) :
    j.get env use kt I = ⟨j, .ok []⟩ := by
  unfold KeyJar.get KeyJar.lookupList slashToggle
  unfold slashToggle at h2
  simp only [h1, h2]
  rw [if_pos hI]

/-- C4 witness: the amended unknown-issuer theorem applied to a jar holding
an unrelated issuer. -/
theorem C4_unknown_nonempty_issuer_returns_empty_witness :
    (("https://idp.example" ≠ "") ∧
      fileLookup jarC4w.issuer_keys "https://idp.example" = none ∧
      fileLookup jarC4w.issuer_keys (slashToggle "https://idp.example") = none) ∧
    jarC4w.get envC4 "sig" "rsa" "https://idp.example" = ⟨jarC4w, .ok []⟩ :=
  ⟨⟨by decide, by decide, by decide⟩,
   C4_unknown_nonempty_issuer_returns_empty envC4 jarC4w "sig" "rsa" "https://idp.example"
     (by decide) (by decide) (by decide)⟩

/-- C5: the claim states add_hmac appends one HMAC bundle per usage to the
NAMED issuer's list, making the secret resolvable under that issuer. On the
code this fails: the loop appends to issuer_keys of the empty string (self),
so after add_hmac the named issuer's list is still empty (the secret is not
resolvable under it) while the self entry now resolves the secret. -/
theorem C5_add_hmac_appends_to_self_entry :
    (jarC5.add_hmac envC4 "https://idp.example" "sek" ["sig"]).2 = none ∧
    fileLookup (jarC5.add_hmac envC4 "https://idp.example" "sek" ["sig"]).1.issuer_keys
      "https://idp.example" = some [] ∧
    ((jarC5.add_hmac envC4 "https://idp.example" "sek" ["sig"]).1.get envC4 "sig" ""
      "https://idp.example").res = .ok [] ∧
    ((jarC5.add_hmac envC4 "https://idp.example" "sek" ["sig"]).1.get envC4 "sig" "" "").res
      = .ok [("hmac", ["sek"])] := by decide

/-- C6 counterexample: the claim states that after removing the sole key of
its kind the issuer entry itself is removed from the jar; here it survives
(mapped to an empty bundle list), so the issuer is still enumerated. -/
theorem C6_cex_issuer_still_enumerated :
    (jarC6.remove_key "https://op.example" "rsa" (some "m1")).contains "https://op.example"
      = true ∧
    fileLookup (jarC6.remove_key "https://op.example" "rsa" (some "m1")).issuer_keys
      "https://op.example" = some [] := by decide

/-- C6 (amended): for an issuer whose only bundle holds only keys of the
requested kind and material, remove_key empties and prunes that bundle from
the issuer's list, but the issuer entry itself remains in the jar mapped to
an empty list, so the issuer is still present in enumeration. -/
theorem C6_prunes_bundle_but_keeps_issuer_entry (I X m : String) (ks : List PyKey)
    (_hne : ks ≠ []) (hm : m ≠ "")
    (hall : ∀ k ∈ ks, k.kty = pyLower X ∧ k.key = m) :
    (KeyJar.mk [(I, [mkMemBundle ks])]).remove_key I X (some m) = KeyJar.mk [(I, [])] ∧
    ((KeyJar.mk [(I, [mkMemBundle ks])]).remove_key I X (some m)).contains I = true := by
  have hfilter : ks.filter (fun k => !(k.kty == pyLower X && k.key == m)) = [] := by
    rw [List.filter_eq_nil_iff]
    intro k hk
    rcases hall k hk with ⟨ha, hb⟩
    simp [ha, hb]
  have hrem : (mkMemBundle ks).removeTyp X (some m) = mkMemBundle [] := by
    have step : (mkMemBundle ks).removeTyp X (some m) =
        if m ≠ "" then
          { mkMemBundle ks with
              _keys := ks.filter (fun k => !(k.kty == pyLower X && k.key == m)) }
        else { mkMemBundle ks with _keys := ks.filter (fun k => !(k.kty == pyLower X)) } := rfl
    rw [step, if_pos hm, hfilter]
    rfl
  have hloop : removeKeyLoop X (some m) 1 0 [mkMemBundle ks] = [] := by
    unfold removeKeyLoop
    rw [dif_pos (by simp : (0 : Nat) < [mkMemBundle ks].length)]
    show (if ((mkMemBundle ks).removeTyp X (some m))._keys = [] then
        removeKeyLoop X (some m) 0 1 (([mkMemBundle ks].set 0
          ((mkMemBundle ks).removeTyp X (some m))).eraseIdx 0)
      else removeKeyLoop X (some m) 0 1
        ([mkMemBundle ks].set 0 ((mkMemBundle ks).removeTyp X (some m)))) = []
    rw [hrem]
    rfl
  have hmain : (KeyJar.mk [(I, [mkMemBundle ks])]).remove_key I X (some m) =
      KeyJar.mk [(I, [])] := by
    unfold KeyJar.remove_key
    rw [fileLookup_cons_self]
    show KeyJar.mk (dictSet [(I, [mkMemBundle ks])] I
      (removeKeyLoop X (some m) 1 0 [mkMemBundle ks])) = KeyJar.mk [(I, [])]
    rw [hloop, dictSet_cons_self]
  refine ⟨hmain, ?_⟩
  rw [hmain]
  unfold KeyJar.contains
  rw [fileLookup_cons_self]
  rfl

/-- C6 witness: the amended revocation theorem applied to a concrete issuer
with one single-key RSA bundle. -/
theorem C6_prunes_bundle_but_keeps_issuer_entry_witness :
    (ksC6w ≠ [] ∧ ("m6" : String) ≠ "" ∧
      (∀ k ∈ ksC6w, k.kty = pyLower "RSA" ∧ k.key = "m6")) ∧
    ((KeyJar.mk [("https://op.example", [mkMemBundle ksC6w])]).remove_key
        "https://op.example" "RSA" (some "m6") = KeyJar.mk [("https://op.example", [])] ∧
     ((KeyJar.mk [("https://op.example", [mkMemBundle ksC6w])]).remove_key
        "https://op.example" "RSA" (some "m6")).contains "https://op.example" = true) :=
  ⟨⟨by decide, by decide, by decide⟩,
   C6_prunes_bundle_but_keeps_issuer_entry "https://op.example" "RSA" "m6" ksC6w
     (by decide) (by decide) (by decide)⟩

/-- C7: for a jar whose counterpart issuer holds signing keys with materials
a and b and whose self (empty-string) issuer holds a signing key with
material c, verify_keys(counterpart) returns, under the rsa kind, exactly
[a, b, c] — counterpart keys first in registration order, self keys appended
after, with no de-duplication (a, b and c range over all materials, equal
values included). -/
theorem C7_verify_keys_merge_order (env : Env) (part a b c : String) (hp : part ≠ "") :
    ((KeyJar.mk [(part, [mkMemBundle [sigRsa a, sigRsa b]]),
                 ("", [mkMemBundle [sigRsa c]])]).verify_keys env part).res =
      .ok [("rsa", [a, b, c])] := by
  unfold KeyJar.verify_keys KeyJar.x_keys useOfVar KeyJar.get KeyJar.lookupList
  simp only [hp, fileLookup_cons_self, dictSet_cons_self]
  simp [KeyJar.collect, jarScanAll, KeyBundle.keysAcc, KeyBundle.uptodate,
    keysIsNotEmptyList, mkMemBundle, sigRsa, dictAppend, dictExtend, dictSet,
    fileLookup, hp]

/-- C7 witness: the merge-order theorem applied with the self key equal by
value to the first counterpart key, showing the duplicate is preserved. -/
theorem C7_verify_keys_merge_order_witness :
    (("https://c.example" : String) ≠ "") ∧
    ((KeyJar.mk [("https://c.example", [mkMemBundle [sigRsa "A", sigRsa "B"]]),
                 ("", [mkMemBundle [sigRsa "A"]])]).verify_keys envC8 "https://c.example").res =
      .ok [("rsa", ["A", "B", "A"])] :=
  ⟨by decide, C7_verify_keys_merge_order envC8 "https://c.example" "A" "B" "A" (by decide)⟩

/-- C8 counterexample: the claim quantifies over every issuer identity, but
for the empty identity a miss does not retry the slash-toggled form: on a jar
holding only the identity "/" (the toggle of ""), the lookup for "" raises
KeyError instead of resolving those keys. -/
theorem C8_cex_empty_issuer_no_fallback :
    ((KeyJar.mk [("/", [mkMemBundle [sigRsa "mz"]])]).get envC8 "sig" "" "").res =
      .error "KeyError: " := by decide

/-- C8 (amended): for every NON-empty issuer identity, KeyJar.get resolves
the bundle list by trying the exact identity first and, on a miss, the
trailing-slash-toggled identity (lookupList), the rest of the computation not
depending on the requested spelling; concretely, keys registered under
"https://idp.example/" resolve via "https://idp.example" and vice versa. For
the empty (self) identity only the exact entry is consulted. -/
theorem C8_slash_toggle_nonempty_issuer (env : Env) (j : KeyJar)
    (use key_type I m : String) (hI : I ≠ "") :
    (j.get env use key_type I =
      match j.lookupList I with
      | some p => j.collect env
          (if use = "dec" then "enc" else if use = "ver" then "sig" else use) key_type p.1 p.2
      | none => ⟨j, .ok []⟩) ∧
    ((KeyJar.mk [("https://idp.example/", [mkMemBundle [sigRsa m]])]).get env "sig" ""
      "https://idp.example").res = .ok [("rsa", [m])] ∧
    ((KeyJar.mk [("https://idp.example", [mkMemBundle [sigRsa m]])]).get env "sig" ""
      "https://idp.example/").res = .ok [("rsa", [m])] := by
  refine ⟨?_, ?_, ?_⟩
  · unfold KeyJar.get
    rw [if_pos hI]
    rcases j.lookupList I with _ | ⟨ik, bl⟩
    · rfl
    · rfl
  · rfl
  · rfl

/-- C8 witness: the amended trailing-slash theorem applied to a concrete
issuer identity, jar and material. -/
theorem C8_slash_toggle_nonempty_issuer_witness :
    (("https://idp.example" : String) ≠ "") ∧
    (((KeyJar.mk [("https://x.example", [])]).get envC8 "enc" "" "https://idp.example" =
      match (KeyJar.mk [("https://x.example", [])]).lookupList "https://idp.example" with
      | some p => (KeyJar.mk [("https://x.example", [])]).collect envC8
          (if ("enc" : String) = "dec" then "enc"
           else if ("enc" : String) = "ver" then "sig" else "enc") "" p.1 p.2
      | none => ⟨KeyJar.mk [("https://x.example", [])], .ok []⟩) ∧
     ((KeyJar.mk [("https://idp.example/", [mkMemBundle [sigRsa "mw"]])]).get envC8 "sig" ""
       "https://idp.example").res = .ok [("rsa", ["mw"])] ∧
     ((KeyJar.mk [("https://idp.example", [mkMemBundle [sigRsa "mw"]])]).get envC8 "sig" ""
       "https://idp.example/").res = .ok [("rsa", ["mw"])]) :=
  ⟨by decide, C8_slash_toggle_nonempty_issuer envC8 (KeyJar.mk [("https://x.example", [])])
    "enc" "" "https://idp.example" "mw" (by decide)⟩

/-- C9 counterexample: the claim requires the raw secret of an HMAC key to
survive the serialize/decode round trip; the HMAC members list omits the
material, so decoding the serialized form of an HMAC key with secret "sek"
yields a key with an empty secret. -/
theorem C9_cex_hmac_secret_dropped :
    decodeOne hmacEx.to_dict = .ok hmacExDecoded ∧ hmacExDecoded.key ≠ hmacEx.key := by decide

/-- C9 (amended): for every key whose kty discriminator agrees with its
class, decoding the serialized map succeeds and preserves kind, alg, use and
key id; the RSA n/e fields and the EC crv/x/y fields are preserved as well,
but an HMAC key decodes with an EMPTY raw secret, since the secret is not
part of the serialized members. -/
theorem C9_roundtrip_semantic_attributes (k : PyKey) (hk : k.kty = kindStr k.cls) :
    ∃ k2, decodeOne k.to_dict = .ok k2 ∧
      k2.kty = k.kty ∧ k2.alg = k.alg ∧ k2.use = k.use ∧ k2.kid = k.kid ∧
      (k.cls = .rsa → k2.n = k.n ∧ k2.e = k.e) ∧
      (k.cls = .ec → k2.crv = k.crv ∧ k2.x = k.x ∧ k2.y = k.y) ∧
      (k.cls = .hmac → k2.key = "") := by
  rcases hc : k.cls with _ | _ | _
  · rw [hc] at hk
    have hr : pyLower "rsa" = "rsa" := by decide
    have eq1 : decodeOne k.to_dict =
        .ok ((RSA_keyInit "rsa" k.alg k.use k.kid k.n k.e "").dc) := by
      unfold PyKey.to_dict decodeOne
      rw [hc, hk]
      simp [kindStr, RSA_keyInit, getD_if, hr, optS, strOf]
    refine ⟨(RSA_keyInit "rsa" k.alg k.use k.kid k.n k.e "").dc, eq1, ?_⟩
    have hf := dc_fields (RSA_keyInit "rsa" k.alg k.use k.kid k.n k.e "") rfl
    rcases hf with ⟨f1, f2, f3, f4, f5, f6, f7, f8, f9⟩
    refine ⟨?_, ?_, ?_, ?_, ?_, ?_, ?_⟩
    · rw [f1, hk]
      exact hr
    · exact f2
    · exact f3
    · exact f4
    · intro
      exact ⟨f5, f6⟩
    · intro hcc
      cases hcc
    · intro hcc
      cases hcc
  · rw [hc] at hk
    have hr : pyLower "ec" = "ec" := by decide
    have eq1 : decodeOne k.to_dict =
        .ok (EC_keyInit "ec" k.alg k.use k.kid k.crv k.x k.y "") := by
      unfold PyKey.to_dict decodeOne
      rw [hc, hk]
      simp [kindStr, EC_keyInit, PyKey.dc, getD_if, hr, optS, strOf]
    refine ⟨EC_keyInit "ec" k.alg k.use k.kid k.crv k.x k.y "", eq1,
      ?_, rfl, rfl, rfl, ?_, ?_, ?_⟩
    · show pyLower "ec" = k.kty
      rw [hk]
      exact hr
    · intro hcc
      cases hcc
    · intro
      exact ⟨rfl, rfl, rfl⟩
    · intro hcc
      cases hcc
  · rw [hc] at hk
    have hr : pyLower "hmac" = "hmac" := by decide
    have eq1 : decodeOne k.to_dict = .ok (HMAC_keyInit "hmac" k.alg k.use k.kid "") := by
      unfold PyKey.to_dict decodeOne
      rw [hc, hk]
      simp [kindStr, HMAC_keyInit, PyKey.dc, getD_if, hr, optS, strOf]
    refine ⟨HMAC_keyInit "hmac" k.alg k.use k.kid "", eq1,
      ?_, rfl, rfl, rfl, ?_, ?_, ?_⟩
    · show pyLower "hmac" = k.kty
      rw [hk]
      exact hr
    · intro hcc
      cases hcc
    · intro hcc
      cases hcc
    · intro
      rfl

/-- C9 witness: the amended round-trip theorem applied to a concrete RSA
key. -/
theorem C9_roundtrip_semantic_attributes_witness :
    rsaEx.kty = kindStr rsaEx.cls ∧
    (∃ k2, decodeOne rsaEx.to_dict = .ok k2 ∧
      k2.kty = rsaEx.kty ∧ k2.alg = rsaEx.alg ∧ k2.use = rsaEx.use ∧ k2.kid = rsaEx.kid ∧
      (rsaEx.cls = .rsa → k2.n = rsaEx.n ∧ k2.e = rsaEx.e) ∧
      (rsaEx.cls = .ec → k2.crv = rsaEx.crv ∧ k2.x = rsaEx.x ∧ k2.y = rsaEx.y) ∧
      (rsaEx.cls = .hmac → k2.key = "")) :=
  ⟨by decide, C9_roundtrip_semantic_attributes rsaEx (by decide)⟩

/-- C10: every successful KeyJar.add stores a bundle whose TLS verification
flag is off exactly when the url contains "/localhost:" or "/localhost/",
and on for every other url. -/
theorem C10_localhost_disables_verification (env : Env) (j : KeyJar)
    (issuer url : String) (j2 : KeyJar) (kc : KeyBundle)
    (h : j.add env issuer url = .ok (j2, kc)) :
    kc.verify_ssl = !(strContains url "/localhost:" || strContains url "/localhost/") := by
  unfold KeyJar.add at h
  dsimp only [] at h
  cases hc : strContains url "/localhost:" || strContains url "/localhost/"
  · rw [hc] at h
    simp only [Bool.false_eq_true, if_false] at h
    cases hinit : KeyBundle.init env [] url 300 true "jwk" "rsa" []
    · rw [hinit] at h
      cases h
    · rw [hinit] at h
      injection h with h1
      injection h1 with hA hB
      subst hB
      rw [kb_init_vs env [] url 300 true "jwk" "rsa" [] _ hinit]
      rfl
  · rw [hc] at h
    simp only [if_true] at h
    cases hinit : KeyBundle.init env [] url 300 false "jwk" "rsa" []
    · rw [hinit] at h
      cases h
    · rw [hinit] at h
      injection h with h1
      injection h1 with hA hB
      subst hB
      rw [kb_init_vs env [] url 300 false "jwk" "rsa" [] _ hinit]
      rfl

/-- C10 witness: adding a localhost url to an empty jar produces a remote
bundle with verification disabled, matching the theorem's conclusion. -/
theorem C10_localhost_disables_verification_witness :
    ((KeyJar.mk []).add envC10 "iss" "https://localhost:8080/jwks" = .ok (jarC10, kcC10)) ∧
    kcC10.verify_ssl =
      !(strContains "https://localhost:8080/jwks" "/localhost:" ||
        strContains "https://localhost:8080/jwks" "/localhost/") :=
  ⟨by decide, C10_localhost_disables_verification envC10 (KeyJar.mk []) "iss"
    "https://localhost:8080/jwks" jarC10 kcC10 (by decide)⟩
